import Mathlib

/-!
Verification of the weather dashboard script `simple_app.py`.

The script has three top-level procedures:
  * `load_data` (lines 25-34): calls the external `process_weather_data` and
    on any exception shows an error and returns an empty dataframe; it is
    wrapped in the framework cache (`st.cache_data`).
  * `plot_visualizations` (lines 38-138): renames seven source columns,
    guards on the date column, then renders three chart sections.
  * `main` (lines 142-164): loads, previews and dispatches to the plots.

The embedding below models pandas dataframes column-wise: a dataframe is a
list of named, typed columns whose cells are `Option Val` (`none` is NaN/NaT).
Streamlit calls are modelled as an output-event trace, and Python exceptions
as an `Except`-style error component: caught exceptions become inline error
events, an uncaught exception becomes a `some` error component of the result.
-/

set_option autoImplicit false

namespace WeatherApp

/-- Scalar value stored in a dataframe cell (NaN/NaT is `Option.none` around it). -/
inductive Val where
  | str (s : String)
  | num (q : Rat)
  | intv (n : Int)
  | date (y : Int) (m : Nat) (d : Nat)
deriving DecidableEq, Repr

/-- A cell of a dataframe: `none` models a missing value (NaN / NaT). -/
abbrev Cell := Option Val

/-- Column dtype, as far as the script inspects it
(`pd.api.types.is_datetime64_any_dtype`). -/
inductive DType where
  | dtFloat
  | dtInt
  | dtDatetime
  | dtObject
deriving DecidableEq, Repr

/-- A named, typed column of cells. -/
structure Col where
  name : String
  dtype : DType
  cells : List Cell
deriving DecidableEq, Repr

/-- A dataframe is a list of columns (all of equal length in a well-formed frame). -/
structure DataFrame where
  cols : List Col
deriving DecidableEq, Repr

/-- The empty dataframe `pd.DataFrame()` (line 34). -/
def DataFrame.emptyDF : DataFrame := ⟨[]⟩

/-- Number of rows: length of the first column (0 for a column-less frame). -/
def DataFrame.nRows (df : DataFrame) : Nat :=
  match df.cols with
  | [] => 0
  | c :: _ => c.cells.length

/-- Pandas `df.empty`: true when either axis has length zero. -/
def DataFrame.isEmptyDF (df : DataFrame) : Bool :=
  df.cols.isEmpty || decide (df.nRows = 0)

/-- Column lookup `df[name]`; first match, `none` models the KeyError case. -/
def getCol (df : DataFrame) (name : String) : Option Col :=
  df.cols.find? (fun c => c.name == name)

/-- Names of the columns of a dataframe. -/
def DataFrame.names (df : DataFrame) : List String :=
  df.cols.map Col.name

/-- The rename mapping of lines 47-55 of the source. -/
def renameMapping : List (String × String) :=
  [("tmin", "TN_float"),
   ("latitude", "LAT_float"),
   ("longitude", "LON_float"),
   ("alti", "ALTI_float"),
   ("station_id", "NUM_POSTE"),
   ("station_name", "NOM_USUEL"),
   ("date", "AAAAMMJJ")]

/-- Rename a single column name as `df.rename(columns=...)` does: names not
in the mapping are left unchanged. -/
def renMap (n : String) : String :=
  match renameMapping.find? (fun p => p.1 == n) with
  | some p => p.2
  | none => n

/-- Pandas `df.rename(columns=...)`: a fresh frame with renamed columns (line 47). -/
def renameCols (df : DataFrame) : DataFrame :=
  ⟨df.cols.map (fun c => { c with name := renMap c.name })⟩

/-- The source names touched by the rename of lines 47-55. -/
def sourceNames : List String :=
  ["tmin", "latitude", "longitude", "alti", "station_id", "station_name", "date"]

/-- Internal chart column names: the seven rename targets plus the derived `Year`. -/
def chartColNames : List String :=
  ["TN_float", "LAT_float", "LON_float", "ALTI_float",
   "NUM_POSTE", "NOM_USUEL", "AAAAMMJJ", "Year"]

/-- The seven renamed column names (without the derived `Year`). -/
def renamedNames : List String :=
  ["TN_float", "LAT_float", "LON_float", "ALTI_float",
   "NUM_POSTE", "NOM_USUEL", "AAAAMMJJ"]

/-- Replace the first column with the given name, or append the column
(pandas column assignment `df[name] = ...`). -/
def setColAux (newc : Col) : List Col → List Col
  | [] => [newc]
  | c :: l => if c.name == newc.name then newc :: l else c :: setColAux newc l

/-- Column assignment on a dataframe. -/
def DataFrame.setCol (df : DataFrame) (newc : Col) : DataFrame :=
  ⟨setColAux newc df.cols⟩

/-- The `.dt.year` of a datetime cell list (NaT yields NaN), line 59. -/
def yearCellsOf (dateCells : List Cell) : List Cell :=
  dateCells.map (fun c =>
    match c with
    | some (Val.date y _ _) => some (Val.intv y)
    | _ => none)

/-- The guard of line 58: the column exists and its dtype is datetime. -/
def datetimeOk (df : DataFrame) : Bool :=
  match getCol df "AAAAMMJJ" with
  | some c => c.dtype == DType.dtDatetime
  | none => false

/-- Line 59: `df[Year] = df[AAAAMMJJ].dt.year` (on a frame whose `AAAAMMJJ`
column exists; otherwise the statement is unreachable and we return `df`). -/
def addYear (df : DataFrame) : DataFrame :=
  match getCol df "AAAAMMJJ" with
  | some c => df.setCol ⟨"Year", DType.dtInt, yearCellsOf c.cells⟩
  | none => df

/-- Filter a list by a boolean mask (pandas boolean indexing, line 71). -/
def maskFilter {α : Type} : List Bool → List α → List α
  | b :: bs, x :: xs => if b then x :: maskFilter bs xs else maskFilter bs xs
  | _, _ => []

/-- Boolean row indexing `df[mask]` applied to every column. -/
def filterRows (df : DataFrame) (mask : List Bool) : DataFrame :=
  ⟨df.cols.map (fun c => { c with cells := maskFilter mask c.cells })⟩

/-- First-occurrence deduplication, generalized over an accumulator of the
values already seen.  Pandas `drop_duplicates` keeps first occurrences. -/
def dedupFirstAux {α : Type} [DecidableEq α] (seen : List α) : List α → List α
  | [] => []
  | a :: l => if a ∈ seen then dedupFirstAux seen l else a :: dedupFirstAux (a :: seen) l

/-- Pandas `drop_duplicates`: keep the first occurrence of each row. -/
def dedupFirst {α : Type} [DecidableEq α] (l : List α) : List α :=
  dedupFirstAux [] l

/-- Insert into a list sorted by the boolean relation `le`. -/
def insertLe {α : Type} (le : α → α → Bool) (a : α) : List α → List α
  | [] => [a]
  | b :: l => if le a b then a :: b :: l else b :: insertLe le a l

/-- Insertion sort by the boolean relation `le` (used for the sorted outputs
of pandas `mode` and `groupby`). -/
def sortByLe {α : Type} (le : α → α → Bool) : List α → List α
  | [] => []
  | a :: l => insertLe le a (sortByLe le l)

/-- Comparison rank of a scalar, used to order heterogeneous values. -/
def valRank : Val → Nat
  | Val.str _ => 0
  | Val.num _ => 1
  | Val.intv _ => 2
  | Val.date _ _ _ => 3

/-- A total boolean order on scalar values (pandas sorts the values returned
by `mode`; the tie-break order is irrelevant to every claim below). -/
def valLe (a b : Val) : Bool :=
  if valRank a = valRank b then
    match a, b with
    | Val.str s, Val.str t => decide (s < t) || s == t
    | Val.num p, Val.num q => decide (p ≤ q)
    | Val.intv m, Val.intv n => decide (m ≤ n)
    | Val.date y1 m1 d1, Val.date y2 m2 d2 =>
        decide (y1 < y2) ||
          (y1 == y2 && (decide (m1 < m2) || (m1 == m2 && decide (d1 ≤ d2))))
    | _, _ => true
  else decide (valRank a < valRank b)

/-- Boolean order on integers, for sorted group keys. -/
def intLeB (a b : Int) : Bool := decide (a ≤ b)

/-- The non-missing values of a cell list (pandas drops NaN before counting). -/
def nonNull (cs : List Cell) : List Val :=
  cs.filterMap id

/-- Maximum of a list of naturals (0 for the empty list). -/
def maxNat (l : List Nat) : Nat :=
  l.foldr max 0

/-- Pandas `Series.mode()`: the non-missing values of maximal multiplicity,
in sorted order; empty when every value is missing. -/
def modeList (cs : List Cell) : List Val :=
  let vs := nonNull cs
  let ds := dedupFirst vs
  let m := maxNat (ds.map (fun v => vs.count v))
  sortByLe valLe (ds.filter (fun v => vs.count v = m))

/-- Numeric reading of a cell (non-numeric scalars act as NaN for means). -/
def cellRat (c : Cell) : Option Rat :=
  match c with
  | some (Val.num q) => some q
  | some (Val.intv n) => some (n : Rat)
  | _ => none

/-- Calendar year of a date cell. -/
def cellYear (c : Cell) : Option Int :=
  match c with
  | some (Val.date y _ _) => some y
  | _ => none

/-- Integer reading of a cell (used on the derived `Year` column). -/
def cellInt (c : Cell) : Option Int :=
  match c with
  | some (Val.intv n) => some n
  | _ => none

/-- Pandas mean of a list of numbers: NaN (`none`) on the empty list. -/
def ratMean (xs : List Rat) : Option Rat :=
  if xs.isEmpty then none else some (xs.sum / (xs.length : Rat))

/-- The sorted distinct group keys of a `Year` column (pandas `groupby`
sorts its keys and drops missing ones). -/
def yearKeys (yc : List Cell) : List Int :=
  sortByLe intLeB (dedupFirst (yc.filterMap cellInt))

/-- Line 72: `groupby(Year)[TN_float].mean()` as a list of
(year, mean) pairs; a group whose values are all missing has mean NaN. -/
def groupMean (yc tc : List Cell) : List (Int × Option Rat) :=
  (yearKeys yc).map (fun y =>
    (y, ratMean ((yc.zip tc).filterMap (fun p =>
      if p.1 == some (Val.intv y) then cellRat p.2 else none))))

/-- Line 128: `df.boxplot(column=TN_float, by=Year)` as a list of
(year, values) groups, one group per year present. -/
def groupVals (yc tc : List Cell) : List (Int × List Rat) :=
  (yearKeys yc).map (fun y =>
    (y, (yc.zip tc).filterMap (fun p =>
      if p.1 == some (Val.intv y) then cellRat p.2 else none)))

/-! ### Output events and exceptions -/

/-- A Python exception value, as far as the script distinguishes them.
Note on line 70: indexing `[0]` into the empty series returned by `mode()`
on an all-missing column performs a label lookup on an empty RangeIndex and
raises `KeyError: 0` (not IndexError); hence no modelled operation raises
an IndexError and the handler of line 83 has no counterpart here. -/
inductive PyErr where
  | keyError (k : String)
  | other (msg : String)
deriving DecidableEq, Repr

/-- Render a value into a message string (used by the f-string interpolations;
quotes of the Python `repr` are elided). -/
def renderVal : Val → String
  | Val.str s => s
  | Val.num q => toString q
  | Val.intv n => toString n
  | Val.date y m d => toString y ++ "-" ++ toString m ++ "-" ++ toString d

/-- Render an exception into a message string (Python `str(e)`, quotes elided). -/
def renderErr : PyErr → String
  | PyErr.keyError k => k
  | PyErr.other m => m

/-- The payload of an `st.pyplot` call: which chart was drawn and from which data. -/
inductive Chart where
  | line (top : Val) (data : List (Int × Option Rat))
  | scatter (pts : List (Cell × Cell × Cell))
  | box (groups : List (Int × List Rat))
deriving DecidableEq, Repr

/-- A user-visible output of the script: each Streamlit call becomes one event. -/
inductive Out where
  | title (s : String)
  | info (s : String)
  | success (s : String)
  | warning (s : String)
  | error (s : String)
  | header (s : String)
  | subheader (s : String)
  | markdown (s : String)
  | dfPreview (df : DataFrame)
  | stMap (pts : List (Cell × Cell))
  | pyplot (c : Chart)
deriving DecidableEq, Repr

/-! Message strings of the source (accents and apostrophes transliterated). -/

/-- Error message of line 61. -/
def dateErrMsg : String := "Colonne AAAAMMJJ (date) manquante ou format incorrect."

/-- Header of line 66. -/
def hdr1Msg : String := "1. Evolution Temporelle de la Temperature Minimale (TN)"

/-- Warning of line 84 (its branch is unreachable, see `PyErr`). -/
def pasAssezMsg : String := "Pas assez de donnees pour l evolution temporelle."

/-- Error message of line 86. -/
def colErr1Msg (k : String) : String :=
  "Erreur de colonne pour la Visualisation 1: " ++ k ++ ". Verifiez le renommage des colonnes."

/-- Markdown of line 81. -/
def courbeMsg (top : Val) : String :=
  "Cette courbe montre la tendance annuelle de la temperature minimale pour la station la plus frequente (" ++ renderVal top ++ ")."

/-- Header of line 90. -/
def hdr2Msg : String := "2. Distribution Spatiale des Stations Meteo"

/-- Subheader of line 97. -/
def subMapMsg : String := "Carte Interactive des Stations"

/-- Subheader of line 101. -/
def subScatterMsg : String := "Scatter Plot (Couleur par Altitude)"

/-- Warning of line 119. -/
def mapWarnMsg : String := "Impossible d afficher la carte : donnees de Latitude/Longitude manquantes."

/-- Header of line 123. -/
def hdr3Msg : String := "3. Distribution des Temperatures (Box Plot par Annee)"

/-- Markdown of line 135. -/
def boxMdMsg : String := "Chaque boite represente la repartition des temperatures minimales pour une annee donnee."

/-- Error message of line 138. -/
def colErr3Msg (k : String) : String :=
  "Erreur de colonne pour la Visualisation 3: " ++ k ++ ". Verifiez le renommage des colonnes."

/-- Error message of line 33. -/
def loadErrMsg (e : PyErr) : String :=
  "Erreur lors du chargement des donnees: " ++ renderErr e

/-- Title of line 144. -/
def titleMsg : String := "Analyse des Donnees Meteo - Departement 04"

/-- Info of line 151. -/
def loadingMsg : String := "Chargement des donnees en cours..."

/-- Success of line 153. -/
def loadedMsg : String := "Donnees chargees!"

/-- Success of line 156 (row and column counts interpolated). -/
def shapeMsg (df : DataFrame) : String :=
  "Donnees chargees : " ++ toString df.nRows ++ " lignes et " ++ toString df.cols.length ++ " colonnes."

/-- Error of line 164. -/
def emptyDfMsg : String := "Le DataFrame est vide. Veuillez verifier les logs d erreur ci-dessus."

/-! ### The three chart sections -/

/-- Section 1, lines 66-86.  Every exception the body can raise is a
KeyError: a missing `NUM_POSTE`, the empty-mode label lookup (`KeyError: 0`),
a missing `Year` or a missing `TN_float`; each is caught by the handler of
line 85 and shown inline, so the section never propagates an exception. -/
def viz1 (df : DataFrame) : List Out :=
  Out.header hdr1Msg ::
  match getCol df "NUM_POSTE" with
  | none => [Out.error (colErr1Msg "NUM_POSTE")]
  | some cnum =>
    match modeList cnum.cells with
    | [] => [Out.error (colErr1Msg "0")]
    | top :: _ =>
      let mask := cnum.cells.map (fun c => c == some top)
      let dfs := filterRows df mask
      match getCol dfs "Year" with
      | none => [Out.error (colErr1Msg "Year")]
      | some cy =>
        match getCol dfs "TN_float" with
        | none => [Out.error (colErr1Msg "TN_float")]
        | some ct =>
          [Out.pyplot (Chart.line top (groupMean cy.cells ct.cells)),
           Out.markdown (courbeMsg top)]

/-- The five columns selected by the spatial section (line 93). -/
def mapColNames : List String :=
  ["NUM_POSTE", "NOM_USUEL", "LAT_float", "LON_float", "ALTI_float"]

/-- A row of the `stations_map` projection of line 93. -/
structure StationRow where
  sid : Cell
  snm : Cell
  lat : Cell
  lon : Cell
  alti : Cell
deriving DecidableEq, Repr

/-- Row-wise zip of the five selected columns. -/
def zipStations : List Cell → List Cell → List Cell → List Cell → List Cell → List StationRow
  | a :: as, b :: bs, c :: cs, d :: ds, e :: es =>
      ⟨a, b, c, d, e⟩ :: zipStations as bs cs ds es
  | _, _, _, _, _ => []

/-- A station row survives `dropna(subset=[LAT_float, LON_float])`. -/
def stationRowOk (r : StationRow) : Bool :=
  !r.lat.isNone && !r.lon.isNone

/-- Line 93: `df[[...]].drop_duplicates().dropna(subset=[LAT_float, LON_float])`. -/
def stationsOf (cid cnm cla clo cal : List Cell) : List StationRow :=
  (dedupFirst (zipStations cid cnm cla clo cal)).filter stationRowOk

/-- Section 2, lines 90-119.  The column selection of line 93 sits in no
try/except: a missing column raises a KeyError that propagates out of
`plot_visualizations` (second component `some e`). -/
def viz2 (df : DataFrame) : List Out × Option PyErr :=
  match getCol df "NUM_POSTE", getCol df "NOM_USUEL", getCol df "LAT_float",
        getCol df "LON_float", getCol df "ALTI_float" with
  | some cid, some cnm, some cla, some clo, some cal =>
      let sm := stationsOf cid.cells cnm.cells cla.cells clo.cells cal.cells
      if sm.isEmpty then
        ([Out.header hdr2Msg, Out.warning mapWarnMsg], none)
      else
        ([Out.header hdr2Msg,
          Out.subheader subMapMsg,
          Out.stMap (sm.map (fun r => (r.lat, r.lon))),
          Out.subheader subScatterMsg,
          Out.pyplot (Chart.scatter (sm.map (fun r => (r.lon, r.lat, r.alti))))],
         none)
  | _, _, _, _, _ =>
      ([Out.header hdr2Msg],
       some (PyErr.keyError
         (String.intercalate ", " (mapColNames.filter (fun n => (getCol df n).isNone)))))

/-- Section 3, lines 123-138.  `boxplot(column=TN_float, by=Year)` raises a
KeyError when either column is missing; it is caught by line 137. -/
def viz3 (df : DataFrame) : List Out :=
  Out.header hdr3Msg ::
  match getCol df "Year" with
  | none => [Out.error (colErr3Msg "Year")]
  | some cy =>
    match getCol df "TN_float" with
    | none => [Out.error (colErr3Msg "TN_float")]
    | some ct =>
      [Out.pyplot (Chart.box (groupVals cy.cells ct.cells)),
       Out.markdown boxMdMsg]

/-- Lines 38-138: rename, date guard, then the three sections in sequence.
The second component is the uncaught exception, if any; sections 1 and 3
catch all their exceptions, section 2 may propagate a KeyError, in which
case section 3 is never reached. -/
def plot_visualizations (df0 : DataFrame) : List Out × Option PyErr :=
  let df1 := renameCols df0
  if datetimeOk df1 then
    let df := addYear df1
    let o1 := viz1 df
    let r2 := viz2 df
    match r2.2 with
    | some e => (o1 ++ r2.1, some e)
    | none => (o1 ++ r2.1 ++ viz3 df, none)
  else
    ([Out.error dateErrMsg], none)

/-! ### Loading, caching, main -/

/-- Lines 25-34 (body of `load_data`, without the cache): delegate to the
external `process_weather_data`; on any exception show an error inline and
return the empty dataframe.  The external function is a parameter. -/
def load_data (fetch : String → Except PyErr DataFrame) (dept_code : String) :
    DataFrame × List Out :=
  match fetch dept_code with
  | Except.ok df => (df, [])
  | Except.error e => (DataFrame.emptyDF, [Out.error (loadErrMsg e)])

/-- The `st.cache_data` store: cached return values keyed by the argument. -/
structure CacheState where
  entries : List (String × DataFrame)
deriving DecidableEq, Repr

/-- Result of one cached invocation of `load_data`: the returned dataframe,
the outputs emitted, the new cache state, and whether the body (and hence
the external fetch) actually ran. -/
structure LoadOutcome where
  df : DataFrame
  outs : List Out
  state : CacheState
  ranBody : Bool
deriving DecidableEq, Repr

/-- `load_data` as wrapped by `st.cache_data` (line 25): a cache hit returns
the stored dataframe without executing the body. -/
def cachedLoadData (fetch : String → Except PyErr DataFrame) (st : CacheState)
    (dept_code : String) : LoadOutcome :=
  match st.entries.find? (fun p => p.1 == dept_code) with
  | some p => ⟨p.2, [], st, false⟩
  | none =>
      let r := load_data fetch dept_code
      ⟨r.1, r.2, ⟨(dept_code, r.1) :: st.entries⟩, true⟩

/-- Pandas `df.head()`: the first five rows of each column. -/
def headDF (df : DataFrame) : DataFrame :=
  ⟨df.cols.map (fun c => { c with cells := c.cells.take 5 })⟩

/-- Lines 142-164: the entry point, as a function of the external fetch, the
current cache state and the sidebar text input. -/
def main (fetch : String → Except PyErr DataFrame) (cache : CacheState)
    (deptInput : String) : List Out × Option PyErr :=
  let r := cachedLoadData fetch cache deptInput
  let pre := [Out.title titleMsg, Out.info loadingMsg] ++ r.outs ++ [Out.success loadedMsg]
  if !r.df.isEmptyDF then
    let p := plot_visualizations r.df
    (pre ++ [Out.success (shapeMsg r.df), Out.dfPreview (headDF r.df), Out.markdown "---"]
        ++ p.1,
     p.2)
  else
    (pre ++ [Out.error emptyDfMsg], none)

/-! ### Well-formedness of an input frame

The embedding resolves `df[name]` to the first column of that name, which
matches pandas only when column names are unique; and the rename of line 47
identifies a source column with its renamed version only when no input
column already carries an internal chart name.  The data model of the spec
(seven fixed source columns) satisfies both conditions. -/

/-- Input-frame well-formedness: distinct column names, none of which is
already one of the internal chart names. -/
def DataFrame.wfNames (df : DataFrame) : Prop :=
  df.names.Nodup ∧ ∀ n ∈ df.names, n ∉ chartColNames

instance (df : DataFrame) : Decidable df.wfNames := by
  unfold DataFrame.wfNames; infer_instance

/-! ### Claim-side definitions (stated over the source columns of the input) -/

/-- The value occurs among the non-missing values of the column and no value
occurs more often: "the station identifier that occurs most frequently". -/
def isTopStation (v : Val) (cells : List Cell) : Prop :=
  v ∈ nonNull cells ∧ ∀ w ∈ nonNull cells, (nonNull cells).count w ≤ (nonNull cells).count v

/-- Rows whose station cell equals the given station. -/
def stationMask (sc : List Cell) (top : Val) : List Bool :=
  sc.map (fun c => c == some top)

/-- The distinct calendar years present in a date column, ascending. -/
def sortedDistinctYears (dc : List Cell) : List Int :=
  sortByLe intLeB (dedupFirst (dc.filterMap cellYear))

/-- The temperature values of the rows of a given calendar year. -/
def tvalsOfYear (dc tc : List Cell) (y : Int) : List Rat :=
  (dc.zip tc).filterMap (fun p =>
    if cellYear p.1 == some y then cellRat p.2 else none)

/-- The per-calendar-year mean of the minimum temperature restricted to one
station: restrict the date and temperature columns to the rows of that
station, then take the mean of the temperatures of each year present. -/
def specAnnualTrend (sc dc tc : List Cell) (top : Val) : List (Int × Option Rat) :=
  let dc2 := maskFilter (stationMask sc top) dc
  let tc2 := maskFilter (stationMask sc top) tc
  (sortedDistinctYears dc2).map (fun y => (y, ratMean (tvalsOfYear dc2 tc2 y)))

/-- The per-calendar-year groups of minimum-temperature values: one group per
year present in the date column, each holding the non-missing temperatures
of that year. -/
def specBoxData (dc tc : List Cell) : List (Int × List Rat) :=
  (sortedDistinctYears dc).map (fun y => (y, tvalsOfYear dc tc y))

/-- An output event that renders a chart (a map or a pyplot figure). -/
def isChartOut : Out → Bool
  | Out.stMap _ => true
  | Out.pyplot _ => true
  | _ => false

/-! ### Aliasing model for the prologue of `plot_visualizations`

Lines 47-59 first rebind the parameter to the fresh frame returned by
`rename` and then assign the `Year` column in place.  To state that the
caller's frame is not mutated, the two statements are interpreted over an
explicit object store: `assignRename` allocates a new object and repoints
the local variable, `setYearInPlace` mutates the object the local variable
currently points to. -/

/-- The two dataframe statements of the prologue. -/
inductive PlotStmt where
  | assignRename
  | setYearInPlace
deriving DecidableEq, Repr

/-- One step over (object store, caller's reference, local reference). -/
def stepStmt : (List DataFrame × Nat × Nat) → PlotStmt → (List DataFrame × Nat × Nat)
  | (objs, caller, cur), PlotStmt.assignRename =>
      (objs ++ [renameCols (objs.getD cur DataFrame.emptyDF)], caller, objs.length)
  | (objs, caller, cur), PlotStmt.setYearInPlace =>
      (objs.set cur (addYear (objs.getD cur DataFrame.emptyDF)), caller, cur)

/-- The prologue of `plot_visualizations` (lines 47 and 59), in order. -/
def plotPrologue : List PlotStmt :=
  [PlotStmt.assignRename, PlotStmt.setYearInPlace]

/-- Run the prologue from a store holding only the caller's frame, with the
parameter aliasing it. -/
def runPrologue (df : DataFrame) : List DataFrame × Nat × Nat :=
  plotPrologue.foldl stepStmt ([df], 0, 0)

/-! ### List-level helper lemmas -/

theorem mem_insertLe {α : Type} (le : α → α → Bool) (a x : α) (l : List α) :
    x ∈ insertLe le a l ↔ x = a ∨ x ∈ l := by
  induction l with
  | nil => simp [insertLe]
  | cons b t ih =>
      by_cases h : le a b = true
      · simp [insertLe, h]
      · simp only [insertLe, h, if_neg, Bool.not_eq_true, if_false, List.mem_cons, ih]
        tauto

theorem mem_sortByLe {α : Type} (le : α → α → Bool) (x : α) (l : List α) :
    x ∈ sortByLe le l ↔ x ∈ l := by
  induction l with
  | nil => simp [sortByLe]
  | cons a t ih => simp [sortByLe, mem_insertLe, ih]

theorem mem_dedupFirstAux {α : Type} [DecidableEq α] (seen : List α) (l : List α) (x : α) :
    x ∈ dedupFirstAux seen l ↔ x ∈ l ∧ x ∉ seen := by
  induction l generalizing seen with
  | nil => simp [dedupFirstAux]
  | cons a t ih =>
      by_cases h : a ∈ seen
      · simp only [dedupFirstAux, h, if_true, ih, List.mem_cons]
        constructor
        · rintro ⟨hx, hs⟩; exact ⟨Or.inr hx, hs⟩
        · rintro ⟨hx | hx, hs⟩
          · subst hx; exact absurd h hs
          · exact ⟨hx, hs⟩
      · simp only [dedupFirstAux, h, if_false, List.mem_cons, ih]
        constructor
        · rintro (hx | ⟨hx, hs⟩)
          · subst hx; exact ⟨Or.inl rfl, h⟩
          · exact ⟨Or.inr hx, fun hxs => hs (Or.inr hxs)⟩
        · rintro ⟨hx | hx, hs⟩
          · subst hx; exact Or.inl rfl
          · by_cases hxa : x = a
            · subst hxa; exact Or.inl rfl
            · exact Or.inr ⟨hx, fun hmem => hmem.elim hxa hs⟩

theorem mem_dedupFirst {α : Type} [DecidableEq α] (l : List α) (x : α) :
    x ∈ dedupFirst l ↔ x ∈ l := by
  simp [dedupFirst, mem_dedupFirstAux]

theorem nodup_dedupFirstAux {α : Type} [DecidableEq α] (seen : List α) (l : List α) :
    (dedupFirstAux seen l).Nodup := by
  induction l generalizing seen with
  | nil => simp [dedupFirstAux]
  | cons a t ih =>
      by_cases h : a ∈ seen
      · simpa [dedupFirstAux, h] using ih seen
      · simp only [dedupFirstAux, h, if_false, List.nodup_cons]
        refine ⟨?_, ih (a :: seen)⟩
        rw [mem_dedupFirstAux]
        rintro ⟨-, hs⟩
        exact hs (List.mem_cons_self a seen)

theorem nodup_dedupFirst {α : Type} [DecidableEq α] (l : List α) :
    (dedupFirst l).Nodup :=
  nodup_dedupFirstAux [] l

theorem le_maxNat (l : List Nat) (x : Nat) (hx : x ∈ l) : x ≤ maxNat l := by
  induction l with
  | nil => cases hx
  | cons a t ih =>
      rcases List.mem_cons.mp hx with h | h
      · subst h; exact Nat.le_max_left _ _
      · exact le_trans (ih h) (Nat.le_max_right _ _)

/-- The head of a non-empty `modeList` is a most frequent non-missing value. -/
theorem modeList_head_top (cs : List Cell) (top : Val) (rest : List Val)
    (h : modeList cs = top :: rest) : isTopStation top cs := by
  have htop : top ∈ modeList cs := by rw [h]; exact List.mem_cons_self _ _
  unfold modeList at htop
  rw [mem_sortByLe, List.mem_filter] at htop
  obtain ⟨hmem, hcnt⟩ := htop
  have hcnt' : (nonNull cs).count top = maxNat ((dedupFirst (nonNull cs)).map (fun v => (nonNull cs).count v)) := by
    exact_mod_cast of_decide_eq_true hcnt
  constructor
  · exact (mem_dedupFirst _ _).mp hmem
  · intro w hw
    rw [hcnt']
    exact le_maxNat _ _ (List.mem_map.mpr ⟨w, (mem_dedupFirst _ _).mpr hw, rfl⟩)

/-! ### maskFilter lemmas -/

theorem maskFilter_map {α β : Type} (f : α → β) (m : List Bool) (l : List α) :
    maskFilter m (l.map f) = (maskFilter m l).map f := by
  induction l generalizing m with
  | nil => cases m <;> rfl
  | cons a t ih =>
      cases m with
      | nil => rfl
      | cons b bs =>
          cases b
          · simpa [maskFilter] using ih bs
          · simpa [maskFilter] using ih bs

/-! ### Column-access lemmas -/

theorem renMap_eq_self {n : String} (hn : n ∉ sourceNames) : renMap n = n := by
  have h : renameMapping.find? (fun p => p.1 == n) = none := by
    rw [List.find?_eq_none]
    intro x hx
    simp only [renameMapping, List.mem_cons, List.not_mem_nil, or_false] at hx
    simp only [sourceNames, List.mem_cons, List.not_mem_nil, or_false] at hn
    push_neg at hn
    rcases hx with h1 | h1 | h1 | h1 | h1 | h1 | h1 <;>
      (subst h1; simp only [beq_iff_eq]; intro hc; exact absurd hc.symm (by tauto))
  simp [renMap, h]

theorem renMap_mem_chart {n : String} (hn : n ∈ sourceNames) : renMap n ∈ chartColNames := by
  simp only [sourceNames, List.mem_cons, List.not_mem_nil, or_false] at hn
  rcases hn with h | h | h | h | h | h | h <;> (subst h; decide)

/-- `renMap` is injective away from the internal chart names. -/
theorem renMap_inj {a b : String} (ha : a ∉ chartColNames) (hb : b ∉ chartColNames)
    (h : renMap a = renMap b) : a = b := by
  by_cases ha1 : a ∈ sourceNames
  · by_cases hb1 : b ∈ sourceNames
    · simp only [sourceNames, List.mem_cons, List.not_mem_nil, or_false] at ha1 hb1
      rcases ha1 with h1 | h1 | h1 | h1 | h1 | h1 | h1 <;>
        rcases hb1 with h2 | h2 | h2 | h2 | h2 | h2 | h2 <;>
          (subst h1; subst h2; revert h; decide)
    · rw [renMap_eq_self hb1] at h
      rw [← h] at hb
      exact absurd (renMap_mem_chart ha1) hb
  · by_cases hb1 : b ∈ sourceNames
    · rw [renMap_eq_self ha1] at h
      rw [h] at ha
      exact absurd (renMap_mem_chart hb1) ha
    · rw [renMap_eq_self ha1, renMap_eq_self hb1] at h
      exact h

theorem getCol_renameCols_aux (cols : List Col)
    (hc : ∀ c ∈ cols, c.name ∉ chartColNames)
    (src : String) (hsrc : src ∉ chartColNames) :
    (cols.map (fun c => { c with name := renMap c.name })).find?
        (fun c => c.name == renMap src)
      = (cols.find? (fun c => c.name == src)).map
          (fun c => { c with name := renMap src }) := by
  induction cols with
  | nil => rfl
  | cons c l ih =>
      have hcn : c.name ∉ chartColNames := hc c (List.mem_cons_self _ _)
      by_cases he : c.name = src
      · subst he
        rw [List.map_cons, List.find?_cons_of_pos _ (by simp),
            List.find?_cons_of_pos _ (by simp)]
        rfl
      · have hne : ¬ (renMap c.name = renMap src) := fun hr => he (renMap_inj hcn hsrc hr)
        rw [List.map_cons, List.find?_cons_of_neg _ (by simpa using hne),
            List.find?_cons_of_neg _ (by simpa using he)]
        exact ih (fun d hd => hc d (List.mem_cons_of_mem _ hd))

/-- Looking up a renamed column: under well-formed names, `df[renMap src]`
after the rename is `df[src]` before it, with the name relabelled. -/
theorem getCol_renameCols (df : DataFrame)
    (hdf : ∀ n ∈ df.names, n ∉ chartColNames)
    (src : String) (hsrc : src ∉ chartColNames) :
    getCol (renameCols df) (renMap src)
      = (getCol df src).map (fun c => { c with name := renMap src }) := by
  unfold getCol renameCols
  exact getCol_renameCols_aux df.cols
    (fun c hcmem => hdf c.name (List.mem_map.mpr ⟨c, hcmem, rfl⟩)) src hsrc

theorem find?_setColAux_self (newc : Col) (cols : List Col) :
    (setColAux newc cols).find? (fun c => c.name == newc.name) = some newc := by
  induction cols with
  | nil => simp [setColAux]
  | cons c l ih =>
      by_cases h : c.name = newc.name
      · simp only [setColAux, if_pos (show (c.name == newc.name) = true by simpa using h)]
        rw [List.find?_cons_of_pos _ (by simp)]
      · simp only [setColAux, if_neg (show ¬ (c.name == newc.name) = true by simpa using h)]
        rw [List.find?_cons_of_neg _ (by simpa using h)]
        exact ih

theorem getCol_setCol_self (df : DataFrame) (newc : Col) :
    getCol (df.setCol newc) newc.name = some newc :=
  find?_setColAux_self newc df.cols

theorem find?_setColAux_ne (newc : Col) (n : String) (hn : n ≠ newc.name) (cols : List Col) :
    (setColAux newc cols).find? (fun c => c.name == n)
      = cols.find? (fun c => c.name == n) := by
  induction cols with
  | nil =>
      simp only [setColAux]
      rw [List.find?_cons_of_neg _ (by simpa using fun he : newc.name = n => hn he.symm)]
  | cons c l ih =>
      by_cases h : c.name = newc.name
      · simp only [setColAux, if_pos (show (c.name == newc.name) = true by simpa using h)]
        rw [List.find?_cons_of_neg _ (by simpa using fun he : newc.name = n => hn he.symm),
            List.find?_cons_of_neg _ (by simpa using fun he : c.name = n => hn (h ▸ he).symm)]
      · simp only [setColAux, if_neg (show ¬ (c.name == newc.name) = true by simpa using h)]
        by_cases h2 : c.name = n
        · rw [List.find?_cons_of_pos _ (by simpa using h2),
              List.find?_cons_of_pos _ (by simpa using h2)]
        · rw [List.find?_cons_of_neg _ (by simpa using h2),
              List.find?_cons_of_neg _ (by simpa using h2)]
          exact ih

theorem getCol_setCol_ne (df : DataFrame) (newc : Col) (n : String) (hn : n ≠ newc.name) :
    getCol (df.setCol newc) n = getCol df n :=
  find?_setColAux_ne newc n hn df.cols

/-- Row filtering commutes with column lookup. -/
theorem getCol_filterRows (df : DataFrame) (mask : List Bool) (n : String) :
    getCol (filterRows df mask) n
      = (getCol df n).map (fun c => { c with cells := maskFilter mask c.cells }) := by
  unfold getCol filterRows
  induction df.cols with
  | nil => rfl
  | cons c l ih =>
      by_cases h : c.name = n
      · rw [List.map_cons, List.find?_cons_of_pos _ (by simpa using h),
            List.find?_cons_of_pos _ (by simpa using h)]
        rfl
      · rw [List.map_cons, List.find?_cons_of_neg _ (by simpa using h),
            List.find?_cons_of_neg _ (by simpa using h)]
        exact ih

/-! ### Case-analysis lemmas for the three sections -/

theorem viz1_eq_noNum (df : DataFrame) (h : getCol df "NUM_POSTE" = none) :
    viz1 df = [Out.header hdr1Msg, Out.error (colErr1Msg "NUM_POSTE")] := by
  unfold viz1; rw [h]

theorem viz1_eq_emptyMode (df : DataFrame) (cnum : Col)
    (h1 : getCol df "NUM_POSTE" = some cnum) (h2 : modeList cnum.cells = []) :
    viz1 df = [Out.header hdr1Msg, Out.error (colErr1Msg "0")] := by
  unfold viz1; rw [h1]; simp [h2]

theorem viz1_eq_noYear (df : DataFrame) (cnum : Col) (top : Val) (rest : List Val)
    (h1 : getCol df "NUM_POSTE" = some cnum) (h2 : modeList cnum.cells = top :: rest)
    (h3 : getCol df "Year" = none) :
    viz1 df = [Out.header hdr1Msg, Out.error (colErr1Msg "Year")] := by
  unfold viz1; rw [h1]; simp [h2, getCol_filterRows, h3]

theorem viz1_eq_noTN (df : DataFrame) (cnum cy : Col) (top : Val) (rest : List Val)
    (h1 : getCol df "NUM_POSTE" = some cnum) (h2 : modeList cnum.cells = top :: rest)
    (h3 : getCol df "Year" = some cy) (h4 : getCol df "TN_float" = none) :
    viz1 df = [Out.header hdr1Msg, Out.error (colErr1Msg "TN_float")] := by
  unfold viz1; rw [h1]; simp [h2, getCol_filterRows, h3, h4]

theorem viz1_eq_success (df : DataFrame) (cnum cy ct : Col) (top : Val) (rest : List Val)
    (h1 : getCol df "NUM_POSTE" = some cnum) (h2 : modeList cnum.cells = top :: rest)
    (h3 : getCol df "Year" = some cy) (h4 : getCol df "TN_float" = some ct) :
    viz1 df = [Out.header hdr1Msg,
               Out.pyplot (Chart.line top
                 (groupMean (maskFilter (stationMask cnum.cells top) cy.cells)
                            (maskFilter (stationMask cnum.cells top) ct.cells))),
               Out.markdown (courbeMsg top)] := by
  unfold viz1; rw [h1]; simp [h2, getCol_filterRows, h3, h4, stationMask]

/-- Every run of section 1 produces either an inline error or a line chart. -/
theorem viz1_shape (df : DataFrame) :
    (∃ s, viz1 df = [Out.header hdr1Msg, Out.error s]) ∨
    (∃ top data, viz1 df = [Out.header hdr1Msg, Out.pyplot (Chart.line top data),
                            Out.markdown (courbeMsg top)]) := by
  cases h1 : getCol df "NUM_POSTE" with
  | none => exact Or.inl ⟨_, viz1_eq_noNum df h1⟩
  | some cnum =>
    cases h2 : modeList cnum.cells with
    | nil => exact Or.inl ⟨_, viz1_eq_emptyMode df cnum h1 h2⟩
    | cons top rest =>
      cases h3 : getCol df "Year" with
      | none => exact Or.inl ⟨_, viz1_eq_noYear df cnum top rest h1 h2 h3⟩
      | some cy =>
        cases h4 : getCol df "TN_float" with
        | none => exact Or.inl ⟨_, viz1_eq_noTN df cnum cy top rest h1 h2 h3 h4⟩
        | some ct => exact Or.inr ⟨top, _, viz1_eq_success df cnum cy ct top rest h1 h2 h3 h4⟩

/-- A line chart in section 1 pins down the station and its data. -/
theorem viz1_line_inv (df : DataFrame) (top : Val) (data : List (Int × Option Rat))
    (h : Out.pyplot (Chart.line top data) ∈ viz1 df) :
    ∃ cnum rest cy ct,
      getCol df "NUM_POSTE" = some cnum ∧
      modeList cnum.cells = top :: rest ∧
      getCol df "Year" = some cy ∧
      getCol df "TN_float" = some ct ∧
      data = groupMean (maskFilter (stationMask cnum.cells top) cy.cells)
                       (maskFilter (stationMask cnum.cells top) ct.cells) := by
  cases h1 : getCol df "NUM_POSTE" with
  | none => rw [viz1_eq_noNum df h1] at h; simp at h
  | some cnum =>
    cases h2 : modeList cnum.cells with
    | nil => rw [viz1_eq_emptyMode df cnum h1 h2] at h; simp at h
    | cons top' rest =>
      cases h3 : getCol df "Year" with
      | none => rw [viz1_eq_noYear df cnum top' rest h1 h2 h3] at h; simp at h
      | some cy =>
        cases h4 : getCol df "TN_float" with
        | none => rw [viz1_eq_noTN df cnum cy top' rest h1 h2 h3 h4] at h; simp at h
        | some ct =>
          rw [viz1_eq_success df cnum cy ct top' rest h1 h2 h3 h4] at h
          simp only [List.mem_cons, List.not_mem_nil, or_false] at h
          rcases h with h | h | h
          · cases h
          · obtain ⟨ht, hd⟩ := by
              have := h
              simp only [Out.pyplot.injEq, Chart.line.injEq] at this
              exact this
            subst ht
            exact ⟨cnum, rest, cy, ct, rfl, h2, rfl, rfl, hd⟩
          · cases h

/-- All five columns selected by section 2 are present. -/
def allMapColsPresent (df : DataFrame) : Prop :=
  ∀ n ∈ mapColNames, (getCol df n).isSome

instance (df : DataFrame) : Decidable (allMapColsPresent df) := by
  unfold allMapColsPresent; infer_instance

/-- The interpolated list of missing column names of the KeyError of line 93. -/
def missingStr (df : DataFrame) : String :=
  String.intercalate ", " (mapColNames.filter (fun n => (getCol df n).isNone))

/-- Full case analysis of section 2: an uncaught KeyError when a selected
column is missing, a warning when the station set is empty, the map and the
scatter otherwise. -/
theorem viz2_shape (df : DataFrame) :
    (¬ allMapColsPresent df ∧
      viz2 df = ([Out.header hdr2Msg], some (PyErr.keyError (missingStr df)))) ∨
    (allMapColsPresent df ∧
      (∃ cid cnm cla clo cal : Col,
        getCol df "NUM_POSTE" = some cid ∧ getCol df "NOM_USUEL" = some cnm ∧
        getCol df "LAT_float" = some cla ∧ getCol df "LON_float" = some clo ∧
        getCol df "ALTI_float" = some cal ∧
        stationsOf cid.cells cnm.cells cla.cells clo.cells cal.cells = [] ∧
        viz2 df = ([Out.header hdr2Msg, Out.warning mapWarnMsg], none))) ∨
    (allMapColsPresent df ∧
      (∃ cid cnm cla clo cal : Col,
        getCol df "NUM_POSTE" = some cid ∧ getCol df "NOM_USUEL" = some cnm ∧
        getCol df "LAT_float" = some cla ∧ getCol df "LON_float" = some clo ∧
        getCol df "ALTI_float" = some cal ∧
        stationsOf cid.cells cnm.cells cla.cells clo.cells cal.cells ≠ [] ∧
        viz2 df =
          ([Out.header hdr2Msg,
            Out.subheader subMapMsg,
            Out.stMap ((stationsOf cid.cells cnm.cells cla.cells clo.cells cal.cells).map
              (fun r => (r.lat, r.lon))),
            Out.subheader subScatterMsg,
            Out.pyplot (Chart.scatter
              ((stationsOf cid.cells cnm.cells cla.cells clo.cells cal.cells).map
                (fun r => (r.lon, r.lat, r.alti))))],
           none))) := by
  cases h1 : getCol df "NUM_POSTE" with
  | none =>
      refine Or.inl ⟨fun hall => by simpa [h1] using hall "NUM_POSTE" (by simp [mapColNames]), ?_⟩
      unfold viz2 missingStr; rw [h1]
  | some cid =>
  cases h2 : getCol df "NOM_USUEL" with
  | none =>
      refine Or.inl ⟨fun hall => by simpa [h2] using hall "NOM_USUEL" (by simp [mapColNames]), ?_⟩
      unfold viz2 missingStr; rw [h1, h2]
  | some cnm =>
  cases h3 : getCol df "LAT_float" with
  | none =>
      refine Or.inl ⟨fun hall => by simpa [h3] using hall "LAT_float" (by simp [mapColNames]), ?_⟩
      unfold viz2 missingStr; rw [h1, h2, h3]
  | some cla =>
  cases h4 : getCol df "LON_float" with
  | none =>
      refine Or.inl ⟨fun hall => by simpa [h4] using hall "LON_float" (by simp [mapColNames]), ?_⟩
      unfold viz2 missingStr; rw [h1, h2, h3, h4]
  | some clo =>
  cases h5 : getCol df "ALTI_float" with
  | none =>
      refine Or.inl ⟨fun hall => by simpa [h5] using hall "ALTI_float" (by simp [mapColNames]), ?_⟩
      unfold viz2 missingStr; rw [h1, h2, h3, h4, h5]
  | some cal =>
      have hall : allMapColsPresent df := by
        intro n hn
        simp only [mapColNames, List.mem_cons, List.not_mem_nil, or_false] at hn
        rcases hn with h | h | h | h | h <;> (subst h; simp [h1, h2, h3, h4, h5])
      cases hsm : stationsOf cid.cells cnm.cells cla.cells clo.cells cal.cells with
      | nil =>
          refine Or.inr (Or.inl ⟨hall, cid, cnm, cla, clo, cal, rfl, rfl, rfl, rfl, rfl, hsm, ?_⟩)
          unfold viz2; rw [h1, h2, h3, h4, h5]; simp [hsm]
      | cons r rs =>
          refine Or.inr (Or.inr ⟨hall, cid, cnm, cla, clo, cal, rfl, rfl, rfl, rfl, rfl,
            by rw [hsm]; simp, ?_⟩)
          unfold viz2; rw [h1, h2, h3, h4, h5]; simp [hsm]

theorem viz3_eq_noYear (df : DataFrame) (h : getCol df "Year" = none) :
    viz3 df = [Out.header hdr3Msg, Out.error (colErr3Msg "Year")] := by
  unfold viz3; rw [h]

theorem viz3_eq_noTN (df : DataFrame) (cy : Col)
    (h1 : getCol df "Year" = some cy) (h2 : getCol df "TN_float" = none) :
    viz3 df = [Out.header hdr3Msg, Out.error (colErr3Msg "TN_float")] := by
  unfold viz3; rw [h1]; simp [h2]

theorem viz3_eq_success (df : DataFrame) (cy ct : Col)
    (h1 : getCol df "Year" = some cy) (h2 : getCol df "TN_float" = some ct) :
    viz3 df = [Out.header hdr3Msg,
               Out.pyplot (Chart.box (groupVals cy.cells ct.cells)),
               Out.markdown boxMdMsg] := by
  unfold viz3; rw [h1]; simp [h2]

/-- Every run of section 3 produces either an inline error or a boxplot. -/
theorem viz3_shape (df : DataFrame) :
    (∃ s, viz3 df = [Out.header hdr3Msg, Out.error s]) ∨
    (∃ g, viz3 df = [Out.header hdr3Msg, Out.pyplot (Chart.box g), Out.markdown boxMdMsg]) := by
  cases h1 : getCol df "Year" with
  | none => exact Or.inl ⟨_, viz3_eq_noYear df h1⟩
  | some cy =>
    cases h2 : getCol df "TN_float" with
    | none => exact Or.inl ⟨_, viz3_eq_noTN df cy h1 h2⟩
    | some ct => exact Or.inr ⟨_, viz3_eq_success df cy ct h1 h2⟩

/-! ### Structure of `plot_visualizations` -/

theorem datetimeOk_iff (df : DataFrame) :
    datetimeOk df = true ↔ ∃ c, getCol df "AAAAMMJJ" = some c ∧ c.dtype = DType.dtDatetime := by
  unfold datetimeOk
  cases h : getCol df "AAAAMMJJ" with
  | none => simp
  | some c => simp [beq_iff_eq]

theorem addYear_eq (df : DataFrame) (c : Col) (h : getCol df "AAAAMMJJ" = some c) :
    addYear df = df.setCol ⟨"Year", DType.dtInt, yearCellsOf c.cells⟩ := by
  unfold addYear; rw [h]

theorem plot_eq_badDate (df0 : DataFrame) (h : datetimeOk (renameCols df0) = false) :
    plot_visualizations df0 = ([Out.error dateErrMsg], none) := by
  unfold plot_visualizations; simp [h]

theorem plot_eq_err (df0 : DataFrame) (e : PyErr)
    (h : datetimeOk (renameCols df0) = true)
    (he : (viz2 (addYear (renameCols df0))).2 = some e) :
    plot_visualizations df0 =
      (viz1 (addYear (renameCols df0)) ++ (viz2 (addYear (renameCols df0))).1, some e) := by
  unfold plot_visualizations; simp [h, he]

theorem plot_eq_noerr (df0 : DataFrame)
    (h : datetimeOk (renameCols df0) = true)
    (he : (viz2 (addYear (renameCols df0))).2 = none) :
    plot_visualizations df0 =
      (viz1 (addYear (renameCols df0)) ++ (viz2 (addYear (renameCols df0))).1
         ++ viz3 (addYear (renameCols df0)), none) := by
  unfold plot_visualizations; simp [h, he]

/-! ### The code's groupings equal the claim-side groupings -/

theorem filterMap_yearCellsOf (dc : List Cell) :
    (yearCellsOf dc).filterMap cellInt = dc.filterMap cellYear := by
  induction dc with
  | nil => rfl
  | cons c t ih =>
      cases c with
      | none => simpa [yearCellsOf, cellInt, cellYear] using ih
      | some v => cases v <;> simpa [yearCellsOf, cellInt, cellYear] using ih

theorem zipFilter_tvals (dc tc : List Cell) (y : Int) :
    ((yearCellsOf dc).zip tc).filterMap (fun p =>
        if p.1 == some (Val.intv y) then cellRat p.2 else none)
      = tvalsOfYear dc tc y := by
  unfold tvalsOfYear
  induction dc generalizing tc with
  | nil => rfl
  | cons c t ih =>
      cases tc with
      | nil => rfl
      | cons b tb =>
          have hih := ih tb
          cases c with
          | none => simpa [yearCellsOf] using hih
          | some v =>
              cases v with
              | str s => simpa [yearCellsOf] using hih
              | num q => simpa [yearCellsOf] using hih
              | intv n => simpa [yearCellsOf] using hih
              | date yy mm dd =>
                  simp only [yearCellsOf, List.map_cons, List.zip_cons_cons,
                    List.filterMap_cons, cellYear, beq_iff_eq] at hih ⊢
                  by_cases hy : yy = y
                  · subst hy; simp [hih]
                  · simp [hy, hih]

theorem groupMean_spec (dc tc : List Cell) :
    groupMean (yearCellsOf dc) tc
      = (sortedDistinctYears dc).map (fun y => (y, ratMean (tvalsOfYear dc tc y))) := by
  unfold groupMean sortedDistinctYears yearKeys
  rw [filterMap_yearCellsOf]
  have hf : (fun y => (y, ratMean (((yearCellsOf dc).zip tc).filterMap (fun p =>
      if p.1 == some (Val.intv y) then cellRat p.2 else none))))
      = (fun y : Int => (y, ratMean (tvalsOfYear dc tc y))) := by
    funext y; rw [zipFilter_tvals]
  rw [hf]

theorem groupVals_spec (dc tc : List Cell) :
    groupVals (yearCellsOf dc) tc = specBoxData dc tc := by
  unfold groupVals specBoxData sortedDistinctYears yearKeys
  rw [filterMap_yearCellsOf]
  have hf : (fun y => (y, ((yearCellsOf dc).zip tc).filterMap (fun p =>
      if p.1 == some (Val.intv y) then cellRat p.2 else none)))
      = (fun y : Int => (y, tvalsOfYear dc tc y)) := by
    funext y; rw [zipFilter_tvals]
  rw [hf]

theorem maskFilter_yearCellsOf (m : List Bool) (dc : List Cell) :
    maskFilter m (yearCellsOf dc) = yearCellsOf (maskFilter m dc) := by
  unfold yearCellsOf; exact maskFilter_map _ m dc

/-- The code path of section 1 (mask the derived `Year` column and the
temperature column, then group) computes exactly the claim-side annual
trend of the station. -/
theorem annualTrend_spec (sc dc tc : List Cell) (top : Val) :
    groupMean (maskFilter (stationMask sc top) (yearCellsOf dc))
              (maskFilter (stationMask sc top) tc)
      = specAnnualTrend sc dc tc top := by
  rw [maskFilter_yearCellsOf, groupMean_spec]
  rfl

/-! ### Concrete frames used by witnesses and counterexamples -/

/-- A station-identifier column with two stations, `S1` most frequent. -/
def colStationId : Col :=
  ⟨"station_id", DType.dtObject, [some (Val.str "S1"), some (Val.str "S1"), some (Val.str "S2")]⟩

/-- A station-name column. -/
def colStationName : Col :=
  ⟨"station_name", DType.dtObject, [some (Val.str "Alpha"), some (Val.str "Alpha"), some (Val.str "Beta")]⟩

/-- A datetime-typed date column spanning two calendar years. -/
def colDate : Col :=
  ⟨"date", DType.dtDatetime, [some (Val.date 2020 1 1), some (Val.date 2021 1 2), some (Val.date 2020 5 3)]⟩

/-- A minimum-temperature column. -/
def colTmin : Col :=
  ⟨"tmin", DType.dtFloat, [some (Val.num 1), some (Val.num 3), some (Val.num (-2))]⟩

/-- A latitude column. -/
def colLat : Col :=
  ⟨"latitude", DType.dtFloat, [some (Val.num 44), some (Val.num 44), some (Val.num 45)]⟩

/-- A longitude column. -/
def colLon : Col :=
  ⟨"longitude", DType.dtFloat, [some (Val.num 6), some (Val.num 6), some (Val.num 7)]⟩

/-- An altitude column. -/
def colAlti : Col :=
  ⟨"alti", DType.dtFloat, [some (Val.num 500), some (Val.num 500), some (Val.num 800)]⟩

/-- A well-formed three-row frame with all seven source columns. -/
def sampleDF : DataFrame :=
  ⟨[colStationId, colStationName, colDate, colTmin, colLat, colLon, colAlti]⟩

/-- `sampleDF` with an extra unrelated column appended. -/
def sampleDFExtra : DataFrame :=
  ⟨sampleDF.cols ++ [⟨"extra", DType.dtObject, [none, none, none]⟩]⟩

/-- A frame with a valid datetime date column but no coordinate columns. -/
def cdfNoLat : DataFrame :=
  ⟨[⟨"station_id", DType.dtObject, [some (Val.str "S1")]⟩,
    ⟨"station_name", DType.dtObject, [some (Val.str "Alpha")]⟩,
    ⟨"date", DType.dtDatetime, [some (Val.date 2020 1 1)]⟩,
    ⟨"tmin", DType.dtFloat, [some (Val.num 1)]⟩]⟩

/-- A frame with all five station columns (coordinates all missing) and no
date column at all. -/
def cdfNoDate : DataFrame :=
  ⟨[⟨"station_id", DType.dtObject, [some (Val.str "A")]⟩,
    ⟨"station_name", DType.dtObject, [some (Val.str "Alpha")]⟩,
    ⟨"latitude", DType.dtFloat, [none]⟩,
    ⟨"longitude", DType.dtFloat, [none]⟩,
    ⟨"alti", DType.dtFloat, [some (Val.num 100)]⟩]⟩

/-- The all-missing station-identifier column of `cdfNullStation`. -/
def colNullStation : Col := ⟨"station_id", DType.dtObject, [none]⟩

/-- A non-empty frame whose station identifiers are all missing. -/
def cdfNullStation : DataFrame :=
  ⟨[colNullStation,
    ⟨"station_name", DType.dtObject, [some (Val.str "X")]⟩,
    ⟨"date", DType.dtDatetime, [some (Val.date 2020 1 1)]⟩]⟩

/-- A fetch that always succeeds with `sampleDF`. -/
def fetchOkSample : String → Except PyErr DataFrame := fun _ => Except.ok sampleDF

/-- A fetch that always raises. -/
def fetchFail : String → Except PyErr DataFrame := fun _ => Except.error (PyErr.other "boom")

/-! ### Remaining helper lemmas -/

theorem maxNat_mem (l : List Nat) (h : l ≠ []) : maxNat l ∈ l := by
  induction l with
  | nil => exact absurd rfl h
  | cons a t ih =>
      cases t with
      | nil => simp [maxNat]
      | cons b tb =>
          rcases Nat.le_total a (maxNat (b :: tb)) with hle | hle
          · have : maxNat (a :: b :: tb) = maxNat (b :: tb) := by
              simp [maxNat] at hle ⊢
              omega
            rw [this]
            exact List.mem_cons_of_mem _ (ih (by simp))
          · have : maxNat (a :: b :: tb) = a := by
              simp [maxNat] at hle ⊢
              omega
            rw [this]
            exact List.mem_cons_self _ _

/-- A column with a non-missing value has a non-empty mode. -/
theorem modeList_ne_nil (cs : List Cell) (h : nonNull cs ≠ []) : modeList cs ≠ [] := by
  unfold modeList
  intro hsort
  have hds : dedupFirst (nonNull cs) ≠ [] := by
    cases hv : nonNull cs with
    | nil => exact absurd hv h
    | cons v vs =>
        intro hnil
        have : v ∈ dedupFirst (nonNull cs) :=
          (mem_dedupFirst _ _).mpr (by rw [hv]; exact List.mem_cons_self _ _)
        rw [hv, hnil] at this
        cases this
  have hmapne : (dedupFirst (nonNull cs)).map (fun v => (nonNull cs).count v) ≠ [] := by
    simpa using hds
  have hmax := maxNat_mem _ hmapne
  obtain ⟨v, hv, hvc⟩ := List.mem_map.mp hmax
  have hvf : v ∈ (dedupFirst (nonNull cs)).filter
      (fun v => (nonNull cs).count v = maxNat ((dedupFirst (nonNull cs)).map (fun v => (nonNull cs).count v))) := by
    rw [List.mem_filter]
    exact ⟨hv, by simpa using hvc⟩
  have : v ∈ sortByLe valLe ((dedupFirst (nonNull cs)).filter
      (fun v => (nonNull cs).count v = maxNat ((dedupFirst (nonNull cs)).map (fun v => (nonNull cs).count v)))) :=
    (mem_sortByLe _ _ _).mpr hvf
  rw [hsort] at this
  cases this

theorem cachedLoadData_outs_shape (fetch : String → Except PyErr DataFrame)
    (st : CacheState) (dept : String) :
    (cachedLoadData fetch st dept).outs = [] ∨
    ∃ e, (cachedLoadData fetch st dept).outs = [Out.error (loadErrMsg e)] := by
  unfold cachedLoadData load_data
  cases h : st.entries.find? (fun p => p.1 == dept) with
  | some p => exact Or.inl rfl
  | none =>
      cases hf : fetch dept with
      | ok df => exact Or.inl rfl
      | error e => exact Or.inr ⟨e, rfl⟩

/-! ### Congruence and further section lemmas -/

theorem viz1_congr (a b : DataFrame)
    (hN : getCol a "NUM_POSTE" = getCol b "NUM_POSTE")
    (hY : getCol a "Year" = getCol b "Year")
    (hT : getCol a "TN_float" = getCol b "TN_float") :
    viz1 a = viz1 b := by
  unfold viz1
  simp only [getCol_filterRows, hN, hY, hT]

theorem viz2_congr (a b : DataFrame)
    (h1 : getCol a "NUM_POSTE" = getCol b "NUM_POSTE")
    (h2 : getCol a "NOM_USUEL" = getCol b "NOM_USUEL")
    (h3 : getCol a "LAT_float" = getCol b "LAT_float")
    (h4 : getCol a "LON_float" = getCol b "LON_float")
    (h5 : getCol a "ALTI_float" = getCol b "ALTI_float") :
    viz2 a = viz2 b := by
  unfold viz2
  simp only [mapColNames, List.filter_cons, List.filter_nil, h1, h2, h3, h4, h5]

theorem viz3_congr (a b : DataFrame)
    (hY : getCol a "Year" = getCol b "Year")
    (hT : getCol a "TN_float" = getCol b "TN_float") :
    viz3 a = viz3 b := by
  unfold viz3
  simp only [hY, hT]

theorem viz2_eq_empty (df : DataFrame) (cid cnm cla clo cal : Col)
    (h1 : getCol df "NUM_POSTE" = some cid) (h2 : getCol df "NOM_USUEL" = some cnm)
    (h3 : getCol df "LAT_float" = some cla) (h4 : getCol df "LON_float" = some clo)
    (h5 : getCol df "ALTI_float" = some cal)
    (hsm : stationsOf cid.cells cnm.cells cla.cells clo.cells cal.cells = []) :
    viz2 df = ([Out.header hdr2Msg, Out.warning mapWarnMsg], none) := by
  unfold viz2
  rw [h1, h2, h3, h4, h5]
  simp [hsm]

theorem viz2_eq_full (df : DataFrame) (cid cnm cla clo cal : Col)
    (h1 : getCol df "NUM_POSTE" = some cid) (h2 : getCol df "NOM_USUEL" = some cnm)
    (h3 : getCol df "LAT_float" = some cla) (h4 : getCol df "LON_float" = some clo)
    (h5 : getCol df "ALTI_float" = some cal)
    (hsm : stationsOf cid.cells cnm.cells cla.cells clo.cells cal.cells ≠ []) :
    viz2 df =
      ([Out.header hdr2Msg,
        Out.subheader subMapMsg,
        Out.stMap ((stationsOf cid.cells cnm.cells cla.cells clo.cells cal.cells).map
          (fun r => (r.lat, r.lon))),
        Out.subheader subScatterMsg,
        Out.pyplot (Chart.scatter
          ((stationsOf cid.cells cnm.cells cla.cells clo.cells cal.cells).map
            (fun r => (r.lon, r.lat, r.alti))))],
       none) := by
  unfold viz2
  rw [h1, h2, h3, h4, h5]
  have hfalse : (stationsOf cid.cells cnm.cells cla.cells clo.cells cal.cells).isEmpty = false := by
    cases hs : stationsOf cid.cells cnm.cells cla.cells clo.cells cal.cells with
    | nil => exact absurd hs hsm
    | cons r rs => rfl
  simp [hfalse]

/-- Section 1 never emits a warning, a map, a scatter or a boxplot. -/
theorem viz1_no_other (df : DataFrame) :
    (∀ s, Out.warning s ∉ viz1 df) ∧
    (∀ p, Out.stMap p ∉ viz1 df) ∧
    (∀ pts, Out.pyplot (Chart.scatter pts) ∉ viz1 df) ∧
    (∀ g, Out.pyplot (Chart.box g) ∉ viz1 df) := by
  rcases viz1_shape df with ⟨s, hs⟩ | ⟨top, data, hs⟩ <;>
    (rw [hs]; refine ⟨?_, ?_, ?_, ?_⟩ <;> intro x <;> simp)

/-- Section 2 never emits a line chart or a boxplot, and its only possible
warning is the map warning. -/
theorem viz2_no_other (df : DataFrame) :
    (∀ top data, Out.pyplot (Chart.line top data) ∉ (viz2 df).1) ∧
    (∀ g, Out.pyplot (Chart.box g) ∉ (viz2 df).1) ∧
    (∀ s, s ≠ mapWarnMsg → Out.warning s ∉ (viz2 df).1) := by
  rcases viz2_shape df with ⟨-, hs⟩ | ⟨-, _, _, _, _, _, _, _, _, _, _, _, hs⟩ |
    ⟨-, _, _, _, _, _, _, _, _, _, _, _, hs⟩ <;>
    (rw [hs]; refine ⟨?_, ?_, ?_⟩ <;> intro x <;> simp_all)

/-- Section 3 never emits a warning, a map, a scatter or a line chart. -/
theorem viz3_no_other (df : DataFrame) :
    (∀ s, Out.warning s ∉ viz3 df) ∧
    (∀ p, Out.stMap p ∉ viz3 df) ∧
    (∀ pts, Out.pyplot (Chart.scatter pts) ∉ viz3 df) ∧
    (∀ top data, Out.pyplot (Chart.line top data) ∉ viz3 df) := by
  rcases viz3_shape df with ⟨s, hs⟩ | ⟨g, hs⟩ <;>
    (rw [hs]; refine ⟨?_, ?_, ?_, ?_⟩ <;> intro x <;> simp)

/-- The warning of the dead IndexError handler never appears in any trace. -/
theorem pasAssez_never (df : DataFrame) :
    Out.warning pasAssezMsg ∉ (plot_visualizations df).1 := by
  cases hdt : datetimeOk (renameCols df) with
  | false =>
      rw [plot_eq_badDate df hdt]
      simp
  | true =>
      have h1 := (viz1_no_other (addYear (renameCols df))).1 pasAssezMsg
      have h2 := (viz2_no_other (addYear (renameCols df))).2.2 pasAssezMsg (by decide)
      have h3 := (viz3_no_other (addYear (renameCols df))).1 pasAssezMsg
      cases hv : (viz2 (addYear (renameCols df))).2 with
      | some e =>
          rw [plot_eq_err df e hdt hv]
          simp only [List.mem_append]
          rintro (h | h)
          · exact h1 h
          · exact h2 h
      | none =>
          rw [plot_eq_noerr df hdt hv]
          simp only [List.mem_append]
          rintro ((h | h) | h)
          · exact h1 h
          · exact h2 h
          · exact h3 h

/-! ### The claims -/

/-- C2: for every department code, `load_data` returns exactly the dataframe
produced by the external `process_weather_data(dept=dept_code)`; if that call
raises, the exception is caught, an error message surfaced, and an empty
dataframe returned instead of propagating. -/
theorem load_data_delegates_or_recovers :
    ∀ (fetch : String → Except PyErr DataFrame) (dept_code : String),
      (∀ df, fetch dept_code = Except.ok df → load_data fetch dept_code = (df, [])) ∧
      (∀ e, fetch dept_code = Except.error e →
          load_data fetch dept_code = (DataFrame.emptyDF, [Out.error (loadErrMsg e)])) := by
  intro fetch dept_code
  constructor
  · intro df h; unfold load_data; rw [h]
  · intro e h; unfold load_data; rw [h]

/-- Witness for C2 at a succeeding and at a raising fetch. -/
theorem load_data_delegates_or_recovers_witness :
    load_data fetchOkSample "04" = (sampleDF, []) ∧
    load_data fetchFail "04"
      = (DataFrame.emptyDF, [Out.error (loadErrMsg (PyErr.other "boom"))]) :=
  ⟨(load_data_delegates_or_recovers fetchOkSample "04").1 sampleDF rfl,
   (load_data_delegates_or_recovers fetchFail "04").2 (PyErr.other "boom") rfl⟩

/-- C6: the load step is memoized per department code: a second invocation
with the same code yields an equal dataframe, does not run the body (hence
does not re-execute the external fetch), and leaves the cache unchanged. -/
theorem cached_load_memoized :
    ∀ (fetch : String → Except PyErr DataFrame) (st : CacheState) (dept_code : String),
      (cachedLoadData fetch (cachedLoadData fetch st dept_code).state dept_code).df
          = (cachedLoadData fetch st dept_code).df ∧
      (cachedLoadData fetch (cachedLoadData fetch st dept_code).state dept_code).ranBody
          = false ∧
      (cachedLoadData fetch (cachedLoadData fetch st dept_code).state dept_code).state
          = (cachedLoadData fetch st dept_code).state := by
  intro fetch st dept_code
  unfold cachedLoadData
  cases h : st.entries.find? (fun p => p.1 == dept_code) with
  | some p => simp [h]
  | none => simp [h, List.find?_cons_of_pos]

/-- C9: the prologue of `plot_visualizations` does not mutate the caller's
frame: `rename` rebinds the local variable to a fresh object, so the
in-place `Year` assignment touches only that copy; at the end the caller's
object is the original frame and the local object is the renamed frame with
the derived `Year` column. -/
theorem plot_prologue_no_mutation :
    ∀ df : DataFrame,
      (runPrologue df).1.getD (runPrologue df).2.1 DataFrame.emptyDF = df ∧
      (runPrologue df).1.getD (runPrologue df).2.2 DataFrame.emptyDF
          = addYear (renameCols df) ∧
      (runPrologue df).2.1 ≠ (runPrologue df).2.2 := by
  intro df
  refine ⟨rfl, rfl, ?_⟩
  show (0 : Nat) ≠ 1
  decide

/-- C7: `main` renders the preview and dispatches to `plot_visualizations`
exactly when the loaded dataframe is non-empty; on an empty dataframe it
surfaces an inline error, renders no preview and no chart, and raises
nothing. -/
theorem main_renders_iff_nonempty :
    ∀ (fetch : String → Except PyErr DataFrame) (cache : CacheState) (deptInput : String),
      ((cachedLoadData fetch cache deptInput).df.isEmptyDF = false →
        main fetch cache deptInput =
          ([Out.title titleMsg, Out.info loadingMsg]
             ++ (cachedLoadData fetch cache deptInput).outs
             ++ [Out.success loadedMsg,
                 Out.success (shapeMsg (cachedLoadData fetch cache deptInput).df),
                 Out.dfPreview (headDF (cachedLoadData fetch cache deptInput).df),
                 Out.markdown "---"]
             ++ (plot_visualizations (cachedLoadData fetch cache deptInput).df).1,
           (plot_visualizations (cachedLoadData fetch cache deptInput).df).2)) ∧
      ((cachedLoadData fetch cache deptInput).df.isEmptyDF = true →
        main fetch cache deptInput =
          ([Out.title titleMsg, Out.info loadingMsg]
             ++ (cachedLoadData fetch cache deptInput).outs
             ++ [Out.success loadedMsg, Out.error emptyDfMsg], none) ∧
        (∀ p, Out.stMap p ∉ (main fetch cache deptInput).1) ∧
        (∀ c, Out.pyplot c ∉ (main fetch cache deptInput).1) ∧
        (∀ d, Out.dfPreview d ∉ (main fetch cache deptInput).1)) := by
  intro fetch cache deptInput
  constructor
  · intro h
    unfold main
    simp [h]
  · intro h
    have hmain : main fetch cache deptInput =
        ([Out.title titleMsg, Out.info loadingMsg]
           ++ (cachedLoadData fetch cache deptInput).outs
           ++ [Out.success loadedMsg, Out.error emptyDfMsg], none) := by
      unfold main
      simp [h]
    refine ⟨hmain, ?_, ?_, ?_⟩ <;> intro x <;> rw [hmain] <;>
      rcases cachedLoadData_outs_shape fetch cache deptInput with ho | ⟨er, ho⟩ <;>
        rw [ho] <;> simp

/-- Witness for C7: the failing fetch yields the empty frame and the
error-only trace; the succeeding fetch yields the preview and the charts. -/
theorem main_renders_iff_nonempty_witness :
    (main fetchFail ⟨[]⟩ "04" =
        ([Out.title titleMsg, Out.info loadingMsg,
          Out.error (loadErrMsg (PyErr.other "boom")),
          Out.success loadedMsg, Out.error emptyDfMsg], none) ∧
      main fetchOkSample ⟨[]⟩ "04" =
        ([Out.title titleMsg, Out.info loadingMsg]
           ++ (cachedLoadData fetchOkSample ⟨[]⟩ "04").outs
           ++ [Out.success loadedMsg,
               Out.success (shapeMsg (cachedLoadData fetchOkSample ⟨[]⟩ "04").df),
               Out.dfPreview (headDF (cachedLoadData fetchOkSample ⟨[]⟩ "04").df),
               Out.markdown "---"]
           ++ (plot_visualizations (cachedLoadData fetchOkSample ⟨[]⟩ "04").df).1,
         (plot_visualizations (cachedLoadData fetchOkSample ⟨[]⟩ "04").df).2)) := by
  refine ⟨?_, ?_⟩
  · have h := ((main_renders_iff_nonempty fetchFail ⟨[]⟩ "04").2 (by decide)).1
    rw [h]
    rfl
  · exact (main_renders_iff_nonempty fetchOkSample ⟨[]⟩ "04").1 (by decide)

/-- C3 counterexample: on a frame with a valid datetime date column but no
coordinate columns, the column selection of the spatial section raises a
KeyError that propagates out of `plot_visualizations` — the second section is
not guarded, contradicting the claim that every section failure is caught
locally and the process never crashes. -/
theorem plot_section2_unguarded_cex :
    (plot_visualizations cdfNoLat).2
        = some (PyErr.keyError "LAT_float, LON_float, ALTI_float") ∧
    ¬ (plot_visualizations cdfNoLat).2 = none := by
  exact ⟨rfl, by decide⟩

/-- C3 amended: a missing or non-datetime date column is caught up front with
an inline error; all failures of sections 1 and 3 are caught locally; the
only way `plot_visualizations` propagates an exception is the unguarded
column selection of section 2, i.e. exactly when the date guard passes and
one of the five selected columns is absent. -/
theorem plot_guarded_except_section2 :
    ∀ df : DataFrame,
      ((plot_visualizations df).2 ≠ none ↔
        (datetimeOk (renameCols df) = true ∧
          ¬ allMapColsPresent (addYear (renameCols df)))) ∧
      (datetimeOk (renameCols df) = false →
        plot_visualizations df = ([Out.error dateErrMsg], none)) := by
  intro df
  refine ⟨?_, plot_eq_badDate df⟩
  cases hdt : datetimeOk (renameCols df) with
  | false =>
      rw [plot_eq_badDate df hdt]
      simp
  | true =>
      rcases viz2_shape (addYear (renameCols df)) with ⟨hmiss, hv2⟩ |
        ⟨hall, _, _, _, _, _, _, _, _, _, _, _, hv2⟩ |
        ⟨hall, _, _, _, _, _, _, _, _, _, _, _, hv2⟩
      · have h2 : (viz2 (addYear (renameCols df))).2
            = some (PyErr.keyError (missingStr (addYear (renameCols df)))) := by
          rw [hv2]
        rw [plot_eq_err df _ hdt h2]
        simp [hmiss]
      · have h2 : (viz2 (addYear (renameCols df))).2 = none := by rw [hv2]
        rw [plot_eq_noerr df hdt h2]
        simp [hall]
      · have h2 : (viz2 (addYear (renameCols df))).2 = none := by rw [hv2]
        rw [plot_eq_noerr df hdt h2]
        simp [hall]

/-- Witness for C3: the iff detects the crash on `cdfNoLat`, and the date
guard returns the inline error alone on `cdfNoDate`. -/
theorem plot_guarded_except_section2_witness :
    (plot_visualizations cdfNoLat).2 ≠ none ∧
    plot_visualizations cdfNoDate = ([Out.error dateErrMsg], none) :=
  ⟨(plot_guarded_except_section2 cdfNoLat).1.mpr ⟨by decide, by decide⟩,
   (plot_guarded_except_section2 cdfNoDate).2 (by decide)⟩

/-- The cells of a named column (empty when the column is absent). -/
def colCells (df : DataFrame) (n : String) : List Cell :=
  ((getCol df n).map Col.cells).getD []

theorem renMap_station_id : renMap "station_id" = "NUM_POSTE" := by decide

theorem renMap_station_name : renMap "station_name" = "NOM_USUEL" := by decide

theorem renMap_date : renMap "date" = "AAAAMMJJ" := by decide

theorem renMap_tmin : renMap "tmin" = "TN_float" := by decide

theorem renMap_latitude : renMap "latitude" = "LAT_float" := by decide

theorem renMap_longitude : renMap "longitude" = "LON_float" := by decide

theorem renMap_alti : renMap "alti" = "ALTI_float" := by decide

/-- Under well-formed names, the renamed frame holds the date column under
`AAAAMMJJ`. -/
theorem getCol_renamed_date (df : DataFrame) (hwf : df.wfNames) (cd : Col)
    (hdate : getCol df "date" = some cd) :
    getCol (renameCols df) "AAAAMMJJ" = some { cd with name := "AAAAMMJJ" } := by
  have h := getCol_renameCols df hwf.2 "date" (by decide)
  rw [renMap_date, hdate] at h
  exact h

/-- The date guard passes exactly when the input has a datetime-typed date
column (for well-formed names). -/
theorem datetimeOk_of (df : DataFrame) (hwf : df.wfNames) (cd : Col)
    (hdate : getCol df "date" = some cd) (hdt : cd.dtype = DType.dtDatetime) :
    datetimeOk (renameCols df) = true := by
  rw [datetimeOk_iff]
  exact ⟨_, getCol_renamed_date df hwf cd hdate, hdt⟩

/-- Column access in the frame actually charted (renamed plus derived
`Year`), expressed through the input frame. -/
theorem getCol_addYear_renamed (df : DataFrame) (hwf : df.wfNames) (cd : Col)
    (hdate : getCol df "date" = some cd) :
    (∀ src ∈ sourceNames,
      getCol (addYear (renameCols df)) (renMap src)
        = (getCol df src).map (fun c => { c with name := renMap src })) ∧
    getCol (addYear (renameCols df)) "Year"
      = some ⟨"Year", DType.dtInt, yearCellsOf cd.cells⟩ := by
  have hAA := getCol_renamed_date df hwf cd hdate
  have hA : addYear (renameCols df)
      = (renameCols df).setCol ⟨"Year", DType.dtInt, yearCellsOf cd.cells⟩ := by
    rw [addYear_eq _ _ hAA]
  constructor
  · intro src hsrc
    have hsrcn : src ∉ chartColNames := by
      simp only [sourceNames, List.mem_cons, List.not_mem_nil, or_false] at hsrc
      rcases hsrc with h | h | h | h | h | h | h <;> (subst h; decide)
    have hmapne : renMap src ≠ "Year" := by
      simp only [sourceNames, List.mem_cons, List.not_mem_nil, or_false] at hsrc
      rcases hsrc with h | h | h | h | h | h | h <;> (subst h; decide)
    rw [hA, getCol_setCol_ne _ _ _ hmapne]
    exact getCol_renameCols df hwf.2 src hsrcn
  · rw [hA]
    exact getCol_setCol_self _ _

/-- C4 counterexample: `cdfNoDate` has all five station columns and an empty
station set (all coordinates missing), yet no warning is displayed, because
the missing date column makes `plot_visualizations` return before section 2. -/
theorem map_warning_unreachable_cex :
    ((getCol cdfNoDate "latitude").isSome = true ∧
     (getCol cdfNoDate "longitude").isSome = true ∧
     (getCol cdfNoDate "alti").isSome = true ∧
     (getCol cdfNoDate "station_id").isSome = true ∧
     (getCol cdfNoDate "station_name").isSome = true) ∧
    stationsOf (colCells cdfNoDate "station_id") (colCells cdfNoDate "station_name")
        (colCells cdfNoDate "latitude") (colCells cdfNoDate "longitude")
        (colCells cdfNoDate "alti") = [] ∧
    Out.warning mapWarnMsg ∉ (plot_visualizations cdfNoDate).1 := by
  decide

/-- C4 amended: provided additionally that the date column is present and
datetime-typed (otherwise the function returns before section 2), the
spatial section charts exactly the distinct station rows with non-missing
coordinates, and shows the warning instead when that set is empty. -/
theorem map_section_data_amended (df : DataFrame) (hwf : df.wfNames)
    (cid cnm cla clo cal cd : Col)
    (hid : getCol df "station_id" = some cid)
    (hnm : getCol df "station_name" = some cnm)
    (hla : getCol df "latitude" = some cla)
    (hlo : getCol df "longitude" = some clo)
    (hal : getCol df "alti" = some cal)
    (hd : getCol df "date" = some cd)
    (hdt : cd.dtype = DType.dtDatetime) :
    (stationsOf cid.cells cnm.cells cla.cells clo.cells cal.cells).Nodup ∧
    (∀ r, r ∈ stationsOf cid.cells cnm.cells cla.cells clo.cells cal.cells ↔
        (r ∈ zipStations cid.cells cnm.cells cla.cells clo.cells cal.cells ∧
         r.lat ≠ none ∧ r.lon ≠ none)) ∧
    (stationsOf cid.cells cnm.cells cla.cells clo.cells cal.cells = [] →
        Out.warning mapWarnMsg ∈ (plot_visualizations df).1 ∧
        (∀ p, Out.stMap p ∉ (plot_visualizations df).1) ∧
        (∀ pts, Out.pyplot (Chart.scatter pts) ∉ (plot_visualizations df).1)) ∧
    (stationsOf cid.cells cnm.cells cla.cells clo.cells cal.cells ≠ [] →
        Out.stMap ((stationsOf cid.cells cnm.cells cla.cells clo.cells cal.cells).map
            (fun r => (r.lat, r.lon))) ∈ (plot_visualizations df).1 ∧
        Out.pyplot (Chart.scatter
            ((stationsOf cid.cells cnm.cells cla.cells clo.cells cal.cells).map
              (fun r => (r.lon, r.lat, r.alti)))) ∈ (plot_visualizations df).1 ∧
        Out.warning mapWarnMsg ∉ (plot_visualizations df).1) := by
  obtain ⟨hsrc, hyear⟩ := getCol_addYear_renamed df hwf cd hd
  have hid' : getCol (addYear (renameCols df)) "NUM_POSTE"
      = some { cid with name := "NUM_POSTE" } := by
    have h := hsrc "station_id" (by decide)
    rw [renMap_station_id] at h
    rw [h, hid]
    rfl
  have hnm' : getCol (addYear (renameCols df)) "NOM_USUEL"
      = some { cnm with name := "NOM_USUEL" } := by
    have h := hsrc "station_name" (by decide)
    rw [renMap_station_name] at h
    rw [h, hnm]
    rfl
  have hla' : getCol (addYear (renameCols df)) "LAT_float"
      = some { cla with name := "LAT_float" } := by
    have h := hsrc "latitude" (by decide)
    rw [renMap_latitude] at h
    rw [h, hla]
    rfl
  have hlo' : getCol (addYear (renameCols df)) "LON_float"
      = some { clo with name := "LON_float" } := by
    have h := hsrc "longitude" (by decide)
    rw [renMap_longitude] at h
    rw [h, hlo]
    rfl
  have hal' : getCol (addYear (renameCols df)) "ALTI_float"
      = some { cal with name := "ALTI_float" } := by
    have h := hsrc "alti" (by decide)
    rw [renMap_alti] at h
    rw [h, hal]
    rfl
  have hdok : datetimeOk (renameCols df) = true := datetimeOk_of df hwf cd hd hdt
  refine ⟨?_, ?_, ?_, ?_⟩
  · exact List.Nodup.filter _ (nodup_dedupFirst _)
  · intro r
    unfold stationsOf
    rw [List.mem_filter, mem_dedupFirst]
    constructor
    · rintro ⟨hz, hok⟩
      refine ⟨hz, ?_, ?_⟩ <;>
        (revert hok; unfold stationRowOk; cases r.lat <;> cases r.lon <;> simp)
    · rintro ⟨hz, hlat, hlon⟩
      refine ⟨hz, ?_⟩
      unfold stationRowOk
      revert hlat hlon
      cases r.lat <;> cases r.lon <;> simp
  · intro hsm
    have hv2 : viz2 (addYear (renameCols df))
        = ([Out.header hdr2Msg, Out.warning mapWarnMsg], none) :=
      viz2_eq_empty _ _ _ _ _ _ hid' hnm' hla' hlo' hal' hsm
    have hplot := plot_eq_noerr df hdok (by rw [hv2])
    rw [hplot, hv2]
    refine ⟨by simp, ?_, ?_⟩ <;> intro x <;>
      simp only [List.mem_append, List.mem_cons, List.not_mem_nil] <;>
      rintro ((h | h) | h)
    · exact (viz1_no_other _).2.1 x h
    · simp at h
    · exact (viz3_no_other _).2.1 x h
    · exact (viz1_no_other _).2.2.1 x h
    · simp at h
    · exact (viz3_no_other _).2.2.1 x h
  · intro hsm
    have hv2 := viz2_eq_full _ _ _ _ _ _ hid' hnm' hla' hlo' hal' hsm
    have hplot := plot_eq_noerr df hdok (by rw [hv2])
    rw [hplot, hv2]
    refine ⟨by simp, by simp, ?_⟩
    simp only [List.mem_append, List.mem_cons, List.not_mem_nil]
    rintro ((h | h) | h)
    · exact (viz1_no_other _).1 _ h
    · simp at h
    · exact (viz3_no_other _).1 _ h

/-- Witness for C4: on `sampleDF` the station set is non-empty and the map
event carries its projections. -/
theorem map_section_data_amended_witness :
    Out.stMap ((stationsOf colStationId.cells colStationName.cells colLat.cells
        colLon.cells colAlti.cells).map (fun r => (r.lat, r.lon)))
      ∈ (plot_visualizations sampleDF).1 :=
  ((map_section_data_amended sampleDF (by decide)
      colStationId colStationName colLat colLon colAlti colDate
      (by decide) (by decide) (by decide) (by decide) (by decide) (by decide)
      (by decide)).2.2.2 (by decide)).1

/-- C5: under a datetime date column and a present `tmin` column, any boxplot
chart in the trace groups the minimum temperatures by calendar year, with one
group per year present (keys are the sorted distinct years), and the chart is
indeed produced whenever no exception escapes. -/
theorem boxplot_per_year (df : DataFrame) (hwf : df.wfNames)
    (cd : Col) (hd : getCol df "date" = some cd) (hdt : cd.dtype = DType.dtDatetime)
    (ct : Col) (ht : getCol df "tmin" = some ct) :
    (∀ g, Out.pyplot (Chart.box g) ∈ (plot_visualizations df).1 →
        g = specBoxData cd.cells ct.cells) ∧
    ((plot_visualizations df).2 = none →
        Out.pyplot (Chart.box (specBoxData cd.cells ct.cells))
          ∈ (plot_visualizations df).1) ∧
    (specBoxData cd.cells ct.cells).map Prod.fst = sortedDistinctYears cd.cells := by
  obtain ⟨hsrc, hyear⟩ := getCol_addYear_renamed df hwf cd hd
  have ht' : getCol (addYear (renameCols df)) "TN_float"
      = some { ct with name := "TN_float" } := by
    have h := hsrc "tmin" (by decide)
    rw [renMap_tmin] at h
    rw [h, ht]
    rfl
  have hdok : datetimeOk (renameCols df) = true := datetimeOk_of df hwf cd hd hdt
  have hviz3 : viz3 (addYear (renameCols df))
      = [Out.header hdr3Msg,
         Out.pyplot (Chart.box (groupVals (yearCellsOf cd.cells) ct.cells)),
         Out.markdown boxMdMsg] :=
    viz3_eq_success _ _ { ct with name := "TN_float" } hyear ht'
  have hspec := groupVals_spec cd.cells ct.cells
  refine ⟨?_, ?_, ?_⟩
  · intro g hg
    cases hv2 : (viz2 (addYear (renameCols df))).2 with
    | some e =>
        rw [plot_eq_err df e hdok hv2] at hg
        rcases List.mem_append.mp hg with h | h
        · exact absurd h ((viz1_no_other _).2.2.2 g)
        · exact absurd h ((viz2_no_other _).2.1 g)
    | none =>
        rw [plot_eq_noerr df hdok hv2] at hg
        rcases List.mem_append.mp hg with h | h
        · rcases List.mem_append.mp h with h1 | h1
          · exact absurd h1 ((viz1_no_other _).2.2.2 g)
          · exact absurd h1 ((viz2_no_other _).2.1 g)
        · rw [hviz3] at h
          simp only [List.mem_cons, List.not_mem_nil, or_false] at h
          rcases h with h | h | h
          · cases h
          · have := h
            simp only [Out.pyplot.injEq, Chart.box.injEq] at this
            rw [this, hspec]
          · cases h
  · intro hnone
    cases hv2 : (viz2 (addYear (renameCols df))).2 with
    | some e =>
        rw [plot_eq_err df e hdok hv2] at hnone
        cases hnone
    | none =>
        rw [plot_eq_noerr df hdok hv2]
        have hmem : Out.pyplot (Chart.box (specBoxData cd.cells ct.cells))
            ∈ viz3 (addYear (renameCols df)) := by
          rw [hviz3, hspec]
          simp
        exact List.mem_append.mpr (Or.inr hmem)
  · unfold specBoxData
    rw [List.map_map]
    exact List.map_id _

/-- Witness for C5: the boxplot of `sampleDF` appears with the claim-side
per-year groups. -/
theorem boxplot_per_year_witness :
    Out.pyplot (Chart.box (specBoxData colDate.cells colTmin.cells))
      ∈ (plot_visualizations sampleDF).1 :=
  (boxplot_per_year sampleDF (by decide) colDate (by decide) (by decide)
    colTmin (by decide)).2.1 (by decide)

/-- C1: under a present `station_id` column and a datetime `date` column,
any line chart produced by the first section plots the per-calendar-year mean
of `tmin` restricted to a most frequent station identifier (the head of the
mode of `station_id`). -/
theorem annual_trend_top_station (df : DataFrame) (hwf : df.wfNames)
    (cs : Col) (hs : getCol df "station_id" = some cs)
    (cd : Col) (hd : getCol df "date" = some cd) (hdt : cd.dtype = DType.dtDatetime) :
    ∀ top data, Out.pyplot (Chart.line top data) ∈ (plot_visualizations df).1 →
      isTopStation top cs.cells ∧
      ∃ ct, getCol df "tmin" = some ct ∧
        data = specAnnualTrend cs.cells cd.cells ct.cells top := by
  obtain ⟨hsrc, hyear⟩ := getCol_addYear_renamed df hwf cd hd
  have hdok : datetimeOk (renameCols df) = true := datetimeOk_of df hwf cd hd hdt
  have hs' : getCol (addYear (renameCols df)) "NUM_POSTE"
      = some { cs with name := "NUM_POSTE" } := by
    have h := hsrc "station_id" (by decide)
    rw [renMap_station_id] at h
    rw [h, hs]
    rfl
  intro top data hmem
  have hline : Out.pyplot (Chart.line top data) ∈ viz1 (addYear (renameCols df)) := by
    cases hv2 : (viz2 (addYear (renameCols df))).2 with
    | some e =>
        rw [plot_eq_err df e hdok hv2] at hmem
        rcases List.mem_append.mp hmem with h | h
        · exact h
        · exact absurd h ((viz2_no_other _).1 top data)
    | none =>
        rw [plot_eq_noerr df hdok hv2] at hmem
        rcases List.mem_append.mp hmem with h | h
        · rcases List.mem_append.mp h with h1 | h1
          · exact h1
          · exact absurd h1 ((viz2_no_other _).1 top data)
        · exact absurd h ((viz3_no_other _).2.2.2 top data)
  obtain ⟨cnum, rest, cy, ct', hN, hmode, hY, hT, hdata⟩ :=
    viz1_line_inv _ top data hline
  have hcnum : cnum = { cs with name := "NUM_POSTE" } := by
    rw [hs'] at hN
    exact (Option.some_inj.mp hN).symm
  have hcy : cy = ⟨"Year", DType.dtInt, yearCellsOf cd.cells⟩ := by
    rw [hyear] at hY
    exact (Option.some_inj.mp hY).symm
  have hmaptmin := hsrc "tmin" (by decide)
  rw [renMap_tmin, hT] at hmaptmin
  cases hct : getCol df "tmin" with
  | none =>
      rw [hct] at hmaptmin
      cases hmaptmin
  | some ct =>
      rw [hct] at hmaptmin
      have hct' : ct' = { ct with name := "TN_float" } := Option.some_inj.mp hmaptmin
      subst hcnum
      subst hcy
      subst hct'
      refine ⟨modeList_head_top _ _ _ hmode, ct, rfl, ?_⟩
      exact hdata.trans (annualTrend_spec cs.cells cd.cells ct.cells top)

/-- Witness for C1 on `sampleDF`: the line chart of its trace names a most
frequent station, namely `S1`. -/
theorem annual_trend_top_station_witness :
    isTopStation (Val.str "S1") colStationId.cells := by
  have hdok : datetimeOk (renameCols sampleDF) = true := by decide
  have hs1 : getCol (addYear (renameCols sampleDF)) "NUM_POSTE"
      = some { colStationId with name := "NUM_POSTE" } := by decide
  have hY : getCol (addYear (renameCols sampleDF)) "Year"
      = some ⟨"Year", DType.dtInt, yearCellsOf colDate.cells⟩ := by decide
  have hT : getCol (addYear (renameCols sampleDF)) "TN_float"
      = some { colTmin with name := "TN_float" } := by decide
  have hmode : modeList ({ colStationId with name := "NUM_POSTE" } : Col).cells
      = Val.str "S1" :: [] := by decide
  have hv1 := viz1_eq_success (addYear (renameCols sampleDF)) _ _ _
    (Val.str "S1") [] hs1 hmode hY hT
  have hv2 : (viz2 (addYear (renameCols sampleDF))).2 = none := by decide
  have hmem : Out.pyplot (Chart.line (Val.str "S1")
      (groupMean
        (maskFilter (stationMask ({ colStationId with name := "NUM_POSTE" } : Col).cells
          (Val.str "S1"))
          (⟨"Year", DType.dtInt, yearCellsOf colDate.cells⟩ : Col).cells)
        (maskFilter (stationMask ({ colStationId with name := "NUM_POSTE" } : Col).cells
          (Val.str "S1"))
          ({ colTmin with name := "TN_float" } : Col).cells)))
      ∈ (plot_visualizations sampleDF).1 := by
    rw [plot_eq_noerr sampleDF hdok hv2]
    refine List.mem_append.mpr (Or.inl (List.mem_append.mpr (Or.inl ?_)))
    rw [hv1]
    exact List.mem_cons_of_mem _ (List.mem_cons_self _ _)
  exact (annual_trend_top_station sampleDF (by decide) colStationId (by decide)
    colDate (by decide) (by decide) (Val.str "S1") _ hmem).1

/-- C8: the rename touches exactly the seven source columns of the data
model, and the whole of `plot_visualizations` reads only the seven renamed
columns (plus the `Year` column it derives from `AAAAMMJJ`): two inputs whose
renamed frames agree on those columns produce identical traces and errors. -/
theorem plot_reads_only_model_columns :
    (renMap "tmin" = "TN_float" ∧ renMap "latitude" = "LAT_float" ∧
     renMap "longitude" = "LON_float" ∧ renMap "alti" = "ALTI_float" ∧
     renMap "station_id" = "NUM_POSTE" ∧ renMap "station_name" = "NOM_USUEL" ∧
     renMap "date" = "AAAAMMJJ") ∧
    (∀ n, n ∉ sourceNames → renMap n = n) ∧
    (∀ df1 df2 : DataFrame,
      (∀ n ∈ renamedNames, getCol (renameCols df1) n = getCol (renameCols df2) n) →
      plot_visualizations df1 = plot_visualizations df2) := by
  refine ⟨⟨renMap_tmin, renMap_latitude, renMap_longitude, renMap_alti,
    renMap_station_id, renMap_station_name, renMap_date⟩,
    fun n hn => renMap_eq_self hn, ?_⟩
  intro df1 df2 h
  have hA : getCol (renameCols df1) "AAAAMMJJ" = getCol (renameCols df2) "AAAAMMJJ" :=
    h _ (by decide)
  have hdt : datetimeOk (renameCols df1) = datetimeOk (renameCols df2) := by
    unfold datetimeOk; rw [hA]
  cases hb : datetimeOk (renameCols df2) with
  | false =>
      rw [plot_eq_badDate df1 (hdt.trans hb), plot_eq_badDate df2 hb]
  | true =>
      obtain ⟨c, hc2, hcd⟩ := (datetimeOk_iff _).mp hb
      have hc1 : getCol (renameCols df1) "AAAAMMJJ" = some c := hA.trans hc2
      have hA1 := addYear_eq _ _ hc1
      have hA2 := addYear_eq _ _ hc2
      have hgetY : getCol (addYear (renameCols df1)) "Year"
          = getCol (addYear (renameCols df2)) "Year" := by
        rw [hA1, hA2, getCol_setCol_self, getCol_setCol_self]
      have hget : ∀ n ∈ renamedNames,
          getCol (addYear (renameCols df1)) n = getCol (addYear (renameCols df2)) n := by
        intro n hn
        have hnY : n ≠ "Year" := by
          simp only [renamedNames, List.mem_cons, List.not_mem_nil, or_false] at hn
          rcases hn with h' | h' | h' | h' | h' | h' | h' <;> (subst h'; decide)
        rw [hA1, hA2, getCol_setCol_ne _ _ _ hnY, getCol_setCol_ne _ _ _ hnY]
        exact h n hn
      have hv1 := viz1_congr _ _ (hget "NUM_POSTE" (by decide)) hgetY
        (hget "TN_float" (by decide))
      have hv2 := viz2_congr _ _ (hget "NUM_POSTE" (by decide))
        (hget "NOM_USUEL" (by decide)) (hget "LAT_float" (by decide))
        (hget "LON_float" (by decide)) (hget "ALTI_float" (by decide))
      have hv3 := viz3_congr _ _ hgetY (hget "TN_float" (by decide))
      cases he : (viz2 (addYear (renameCols df2))).2 with
      | some e =>
          rw [plot_eq_err df1 e (hdt.trans hb) (by rw [hv2]; exact he),
              plot_eq_err df2 e hb he, hv1, hv2]
      | none =>
          rw [plot_eq_noerr df1 (hdt.trans hb) (by rw [hv2]; exact he),
              plot_eq_noerr df2 hb he, hv1, hv2, hv3]

/-- Witness for C8: appending an unrelated column leaves the whole output
unchanged. -/
theorem plot_reads_only_model_columns_witness :
    plot_visualizations sampleDF = plot_visualizations sampleDFExtra :=
  plot_reads_only_model_columns.2.2 sampleDF sampleDFExtra (by decide)

/-- C10 counterexample: a non-empty frame whose station identifiers are all
missing has an empty mode, so the first-element lookup does fail (with the
label KeyError of pandas, caught by the KeyError handler, whose message is
shown), contrary to the claim that the mode is always non-empty. -/
theorem mode_nonempty_cex :
    cdfNullStation.isEmptyDF = false ∧
    getCol cdfNullStation "station_id" = some colNullStation ∧
    modeList colNullStation.cells = [] ∧
    Out.error (colErr1Msg "0") ∈ (plot_visualizations cdfNullStation).1 := by
  decide

/-- C10 amended: when the station-identifier column holds at least one
non-missing value, its mode is non-empty and the not-enough-data warning of
the (dead) IndexError branch is never displayed. -/
theorem mode_nonempty_amended (df : DataFrame) (cs : Col)
    (hs : getCol df "station_id" = some cs)
    (v : Val) (hv : some v ∈ cs.cells) :
    modeList cs.cells ≠ [] ∧
    Out.warning pasAssezMsg ∉ (plot_visualizations df).1 := by
  refine ⟨?_, pasAssez_never df⟩
  apply modeList_ne_nil
  intro hnn
  have hmem : v ∈ nonNull cs.cells := by
    unfold nonNull
    exact List.mem_filterMap.mpr ⟨some v, hv, rfl⟩
  rw [hnn] at hmem
  cases hmem

/-- Witness for C10 amended on `sampleDF`. -/
theorem mode_nonempty_amended_witness :
    modeList colStationId.cells ≠ [] ∧
    Out.warning pasAssezMsg ∉ (plot_visualizations sampleDF).1 :=
  mode_nonempty_amended sampleDF colStationId (by decide) (Val.str "S1") (by decide)

end WeatherApp
